import Mathlib

/-!
Shallow embedding of `src/courses/views.py` (Django course-management views)
together with the parts of the data model the views traverse.

Modelling conventions:
* An authenticated request carries `some userId`; an unauthenticated request
  carries `none` (Django's `AnonymousUser`).
* The persistent store is an explicit `DB` record of tables (lists of rows);
  every handler is a pure function `DB → ... → Response × DB`.
* `get_object_or_404` / queryset filtering become `List.find?` / `List.filter`
  with the same predicates the source passes to the ORM.
* Filtering a relation against `AnonymousUser` raises in Django
  (the int field coercion of a non-model value fails); handlers without a
  login guard therefore produce `Response.crash PyExc.typeErr` when they reach
  an owner filter unauthenticated.
* Form/formset field validation lives in `courses/forms.py` and `models.py`,
  which are not part of the sources; a submission therefore carries an
  abstract validity bit, and the formset row semantics are modelled from the
  spec (see `formsetSaveRow`).
-/

namespace ELearn

abbrev UserId := Nat

structure Subject where
  id : Nat
  title : String
  slug : String
deriving DecidableEq

structure Course where
  id : Nat
  owner : UserId
  subject : Nat
  title : String
  slug : String
  overview : String
deriving DecidableEq

structure Module where
  id : Nat
  course : Nat
  title : String
  description : String
  order : Nat
deriving DecidableEq

inductive ItemKind
  | text
  | video
  | image
  | file
deriving DecidableEq

/-- One row of a typed content table (Text/Video/Image/File), tagged by kind;
each Django typed model has its own id sequence, so rows are keyed by
`(kind, id)`. -/
structure Item where
  kind : ItemKind
  id : Nat
  owner : UserId
  title : String
  payload : String
deriving DecidableEq

structure Content where
  id : Nat
  module : Nat
  itemKind : ItemKind
  itemId : Nat
  order : Nat
deriving DecidableEq

structure DB where
  subjects : List Subject
  courses : List Course
  modules : List Module
  contents : List Content
  items : List Item
deriving DecidableEq

inductive UrlName
  | manage_course_list
  | module_content_list
deriving DecidableEq

/-- Unhandled Python exceptions a handler can raise (become HTTP 500). -/
inductive PyExc
  | typeErr
  | valueErr
  | attrErr
  | nameErr
deriving DecidableEq

inductive Response
  | loginRequired
  | forbidden
  | notFound
  | redirect (url : UrlName) (arg : Option Nat)
  | renderForm (hasErrors : Bool)
  | renderCourseList (courseIds : List Nat)
  | renderModuleContents (moduleId : Nat)
  | renderCatalog (subjCounts : List (Nat × Nat)) (crsCounts : List (Nat × Nat))
      (chosenSubject : Option Nat)
  | jsonSaved
  | crash (exc : PyExc)
deriving DecidableEq

/-- Owner of the course with the given id, if it exists. -/
def courseOwner (db : DB) (courseId : Nat) : Option UserId :=
  (db.courses.find? (fun c => c.id == courseId)).map (fun c => c.owner)

/-- The traversal `course__owner == user` used by the module-level views. -/
def moduleOwnedBy (db : DB) (u : UserId) (m : Module) : Bool :=
  courseOwner db m.course == some u

/-- The traversal `module__course__owner == user` used by the content views. -/
def contentOwnedBy (db : DB) (u : UserId) (c : Content) : Bool :=
  match db.modules.find? (fun m => m.id == c.module) with
  | none => false
  | some m => moduleOwnedBy db u m

/-- The three Course permissions referenced by `permission_required`
attributes in `views.py` (lines 81, 87, 95). -/
structure PermSet where
  add_course : Bool
  change_course : Bool
  delete_course : Bool
deriving DecidableEq

/-- Submitted Course form fields (`fields = [subject, title, slug, overview]`,
views.py line 58); validity of the submission is abstracted to a bit since
field validation lives in the absent `models.py`. -/
structure CourseForm where
  subject : Nat
  title : String
  slug : String
  overview : String
deriving DecidableEq

/-- `ManageCourseListView` (views.py lines 70-73): `LoginRequiredMixin` plus
`OwnerMixin.get_queryset`, which filters courses by `owner=request.user`. -/
def manageCourseListView (db : DB) (actor : Option UserId) : Response :=
  match actor with
  | none => Response.loginRequired
  | some u =>
    Response.renderCourseList
      ((db.courses.filter (fun c => c.owner == u)).map (fun c => c.id))

def nextCourseId (db : DB) : Nat :=
  db.courses.foldl (fun a c => max a c.id) 0 + 1

/-- `CourseCreateView` (views.py lines 76-81): `PermissionRequiredMixin` with
`courses.add_course`, then `OwnerEditMixin.form_valid` stamps
`owner = request.user` before saving. -/
def courseCreateView (db : DB) (actor : Option UserId) (perms : PermSet)
    (form : CourseForm) (formValid : Bool) : Response × DB :=
  match actor with
  | none => (Response.loginRequired, db)
  | some u =>
    if perms.add_course then
      if formValid then
        (Response.redirect UrlName.manage_course_list none,
         { db with courses := db.courses ++
             [{ id := nextCourseId db, owner := u, subject := form.subject,
                title := form.title, slug := form.slug,
                overview := form.overview }] })
      else (Response.renderForm true, db)
    else (Response.forbidden, db)

/-- `CourseUpdateView` (views.py lines 84-87).  NOTE: the class sets
`permission_required = 'courses.change_course'` but none of its bases is
`PermissionRequiredMixin`, so no permission check ever runs; the `perms`
argument is accordingly unused, mirroring the dead attribute. -/
def courseUpdateView (db : DB) (actor : Option UserId) (perms : PermSet)
    (pk : Nat) (form : CourseForm) (formValid : Bool) : Response × DB :=
  match actor with
  | none => (Response.loginRequired, db)
  | some u =>
    match db.courses.find? (fun c => c.id == pk && c.owner == u) with
    | none => (Response.notFound, db)
    | some _ =>
      if formValid then
        (Response.redirect UrlName.manage_course_list none,
         { db with courses := db.courses.map (fun c =>
             if c.id == pk then
               { c with subject := form.subject, title := form.title,
                        slug := form.slug, overview := form.overview,
                        owner := u }
             else c) })
      else (Response.renderForm true, db)

/-- `CourseDeleteView` (views.py lines 90-95).  Same dead
`permission_required` attribute as `CourseUpdateView`: no permission check.
Cascade of modules and their contents is modelled from the spec (the FK
`on_delete` behaviour lives in the absent `models.py`). -/
def courseDeleteView (db : DB) (actor : Option UserId) (perms : PermSet)
    (pk : Nat) : Response × DB :=
  match actor with
  | none => (Response.loginRequired, db)
  | some u =>
    match db.courses.find? (fun c => c.id == pk && c.owner == u) with
    | none => (Response.notFound, db)
    | some _ =>
      (Response.redirect UrlName.manage_course_list none,
       { db with
           courses := db.courses.filter (fun c => !(c.id == pk)),
           modules := db.modules.filter (fun m => !(m.course == pk)),
           contents := db.contents.filter (fun ct =>
             !(db.modules.any (fun m => m.id == ct.module && m.course == pk))) })

/-- One row of a module-formset submission. -/
inductive ModuleRowOp
  | add (title description : String)
  | edit (id : Nat) (title description : String)
  | remove (id : Nat)
deriving DecidableEq

structure ModuleRow where
  op : ModuleRowOp
  valid : Bool
deriving DecidableEq

def nextModuleId (db : DB) : Nat :=
  db.modules.foldl (fun a m => max a m.id) 0 + 1

/-- Modelled from the spec: `ModuleFormSet` is built in `courses/forms.py`,
which is not among the sources.  Per spec section 4.4 it is an inline formset
over the Modules of one Course whose `save` applies every row
(addition / edit / deletion) against that course; the order of an added
module is assigned by the storage layer. -/
def formsetSaveRow (courseId : Nat) (db : DB) (op : ModuleRowOp) : DB :=
  match op with
  | ModuleRowOp.add title descr =>
    { db with modules := db.modules ++
        [{ id := nextModuleId db, course := courseId, title := title,
           description := descr,
           order := (db.modules.filter (fun m => m.course == courseId)).length }] }
  | ModuleRowOp.edit mid title descr =>
    { db with modules := db.modules.map (fun m =>
        if m.id == mid && m.course == courseId then
          { m with title := title, description := descr }
        else m) }
  | ModuleRowOp.remove mid =>
    { db with modules := db.modules.filter (fun m =>
        !(m.id == mid && m.course == courseId)) }

/-- Modelled from the spec: `formset.save()` persists all rows of the set. -/
def formsetSave (courseId : Nat) (db : DB) (rows : List ModuleRow) : DB :=
  rows.foldl (fun d r => formsetSaveRow courseId d r.op) db

/-- `CourseModuleUpdateView` GET (views.py lines 108-118): `dispatch` resolves
the course by `id=pk, owner=request.user` (404 otherwise; crash when
unauthenticated, as there is no login guard), then renders the formset. -/
def courseModuleUpdateGet (db : DB) (actor : Option UserId) (pk : Nat) :
    Response :=
  match actor with
  | none => Response.crash PyExc.typeErr
  | some u =>
    match db.courses.find? (fun c => c.id == pk && c.owner == u) with
    | none => Response.notFound
    | some _ => Response.renderForm false

/-- `CourseModuleUpdateView` POST (views.py lines 108-127): after the owner
scoped course resolution, `formset.is_valid()` gates a single `formset.save()`
(redirect to the course list) against a re-render with errors. -/
def courseModuleUpdatePost (db : DB) (actor : Option UserId) (pk : Nat)
    (rows : List ModuleRow) : Response × DB :=
  match actor with
  | none => (Response.crash PyExc.typeErr, db)
  | some u =>
    match db.courses.find? (fun c => c.id == pk && c.owner == u) with
    | none => (Response.notFound, db)
    | some course =>
      if rows.all (fun r => r.valid) then
        (Response.redirect UrlName.manage_course_list none,
         formsetSave course.id db rows)
      else (Response.renderForm true, db)

/-- `ContentCreateUpdateView.get_model` (views.py lines 138-143): resolves the
type tag against the allow-list, returning no model otherwise. -/
def get_model (model_name : String) : Option ItemKind :=
  if model_name == "text" then some ItemKind.text
  else if model_name == "video" then some ItemKind.video
  else if model_name == "image" then some ItemKind.image
  else if model_name == "file" then some ItemKind.file
  else none

/-- Python truthiness of the optional url id (`if id:` / `if not id:`). -/
def pyTruthy (oid : Option Nat) : Bool :=
  match oid with
  | none => false
  | some n => n != 0

/-- `ContentCreateUpdateView.dispatch` (views.py lines 152-163): resolves the
module by `id=module_id, course__owner=request.user`; resolves the model by
tag; when an id is supplied, resolves the existing typed item by
`id=id, owner=request.user` only.  `get_object_or_404(None, ...)` raises
ValueError. -/
def contentDispatch (db : DB) (u : UserId) (moduleId : Nat)
    (model_name : String) (oid : Option Nat) :
    Except Response (Module × Option ItemKind × Option Item) :=
  match db.modules.find? (fun m => m.id == moduleId && moduleOwnedBy db u m) with
  | none => Except.error Response.notFound
  | some m =>
    if pyTruthy oid then
      match get_model model_name with
      | none => Except.error (Response.crash PyExc.valueErr)
      | some kind =>
        match db.items.find? (fun it =>
            it.kind == kind && some it.id == oid && it.owner == u) with
        | none => Except.error Response.notFound
        | some obj => Except.ok (m, get_model model_name, some obj)
    else Except.ok (m, get_model model_name, none)

/-- Submitted typed-item form fields; validation is abstracted to a bit
(the typed models live in the absent `models.py`). -/
structure ContentForm where
  title : String
  payload : String
  valid : Bool
deriving DecidableEq

def nextItemId (db : DB) (kind : ItemKind) : Nat :=
  (db.items.filter (fun it => it.kind == kind)).foldl
    (fun a it => max a it.id) 0 + 1

def nextContentId (db : DB) : Nat :=
  db.contents.foldl (fun a c => max a c.id) 0 + 1

/-- `ContentCreateUpdateView.get` (views.py lines 165-168):
`modelform_factory(None, ...)` raises when the type tag was not resolved. -/
def contentCreateUpdateGet (db : DB) (actor : Option UserId) (moduleId : Nat)
    (model_name : String) (oid : Option Nat) : Response :=
  match actor with
  | none => Response.crash PyExc.typeErr
  | some u =>
    match contentDispatch db u moduleId model_name oid with
    | Except.error r => r
    | Except.ok (_, model, _) =>
      match model with
      | none => Response.crash PyExc.attrErr
      | some _ => Response.renderForm false

/-- `ContentCreateUpdateView.post` (views.py lines 170-183): on a valid form,
saves the typed item with `owner = request.user`; `if not id:` additionally
wraps a fresh item in a new Content row attached to the resolved module; the
new Content row's order is the storage layer's default (modelled from the
spec as 0).  Redirects to the module's content list. -/
def contentCreateUpdatePost (db : DB) (actor : Option UserId) (moduleId : Nat)
    (model_name : String) (oid : Option Nat) (form : ContentForm) :
    Response × DB :=
  match actor with
  | none => (Response.crash PyExc.typeErr, db)
  | some u =>
    match contentDispatch db u moduleId model_name oid with
    | Except.error r => (r, db)
    | Except.ok (m, model, objOpt) =>
      match model with
      | none => (Response.crash PyExc.attrErr, db)
      | some kind =>
        if form.valid then
          match objOpt with
          | some obj =>
            let obj' := { obj with
              title := form.title
              payload := form.payload
              owner := u }
            let db1 := { db with items := db.items.map (fun it =>
                if it.kind == obj.kind && it.id == obj.id then obj' else it) }
            if pyTruthy oid then
              (Response.redirect UrlName.module_content_list (some m.id), db1)
            else
              (Response.redirect UrlName.module_content_list (some m.id),
               { db1 with contents := db1.contents ++
                   [{ id := nextContentId db1, module := m.id,
                      itemKind := kind, itemId := obj'.id, order := 0 }] })
          | none =>
            let obj' : Item := {
              kind := kind
              id := nextItemId db kind
              owner := u
              title := form.title
              payload := form.payload }
            let db1 := { db with items := db.items ++ [ obj' ] }
            if pyTruthy oid then
              (Response.redirect UrlName.module_content_list (some m.id), db1)
            else
              (Response.redirect UrlName.module_content_list (some m.id),
               { db1 with contents := db1.contents ++
                   [{ id := nextContentId db1, module := m.id,
                      itemKind := kind, itemId := obj'.id, order := 0 }] })
        else (Response.renderForm true, db)

/-- `ContentDeleteView.post` (views.py lines 186-195): resolves the Content
by `id=id, module__course__owner=request.user`, deletes the typed item, then
the Content row, then evaluates `redirect('module_content_list', module.id)`
where `module` is an undefined name: NameError after both deletions. -/
def contentDeleteView (db : DB) (actor : Option UserId) (cid : Nat) :
    Response × DB :=
  match actor with
  | none => (Response.crash PyExc.typeErr, db)
  | some u =>
    match db.contents.find? (fun c => c.id == cid && contentOwnedBy db u c) with
    | none => (Response.notFound, db)
    | some content =>
      let db1 := { db with items := db.items.filter (fun it =>
          !(it.kind == content.itemKind && it.id == content.itemId)) }
      let db2 := { db1 with contents := db1.contents.filter (fun c =>
          !(c.id == content.id)) }
      (Response.crash PyExc.nameErr, db2)

/-- `ModuleContentListView.get` (views.py lines 198-207). -/
def moduleContentListView (db : DB) (actor : Option UserId) (moduleId : Nat) :
    Response :=
  match actor with
  | none => Response.crash PyExc.typeErr
  | some u =>
    match db.modules.find? (fun m => m.id == moduleId && moduleOwnedBy db u m) with
    | none => Response.notFound
    | some m => Response.renderModuleContents m.id

/-- One iteration of the `ModuleOrderView.post` loop:
`Module.objects.filter(id=id, course__owner=request.user).update(order=order)`. -/
def ordStepM (db : DB) (u : UserId) (p : Nat × Nat) (m : Module) : Module :=
  if m.id == p.1 && moduleOwnedBy db u m then { m with order := p.2 } else m

def moduleOrderRun (u : UserId) (db : DB) (mapping : List (Nat × Nat)) : DB :=
  mapping.foldl (fun d p => { d with modules := d.modules.map (ordStepM d u p) }) db

/-- `ModuleOrderView.post` (views.py lines 210-218): no login guard; an
unauthenticated request with a nonempty mapping crashes at the owner filter,
with an empty mapping the loop body never runs and the fixed OK payload is
returned. -/
def moduleOrderView (db : DB) (actor : Option UserId)
    (mapping : List (Nat × Nat)) : Response × DB :=
  match actor with
  | none =>
    if mapping.isEmpty then (Response.jsonSaved, db)
    else (Response.crash PyExc.typeErr, db)
  | some u => (Response.jsonSaved, moduleOrderRun u db mapping)

/-- One iteration of the `ContentOrderView.post` loop. -/
def ordStepC (db : DB) (u : UserId) (p : Nat × Nat) (c : Content) : Content :=
  if c.id == p.1 && contentOwnedBy db u c then { c with order := p.2 } else c

def contentOrderRun (u : UserId) (db : DB) (mapping : List (Nat × Nat)) : DB :=
  mapping.foldl (fun d p => { d with contents := d.contents.map (ordStepC d u p) }) db

/-- `ContentOrderView.post` (views.py lines 221-229). -/
def contentOrderView (db : DB) (actor : Option UserId)
    (mapping : List (Nat × Nat)) : Response × DB :=
  match actor with
  | none =>
    if mapping.isEmpty then (Response.jsonSaved, db)
    else (Response.crash PyExc.typeErr, db)
  | some u => (Response.jsonSaved, contentOrderRun u db mapping)

/-- `Subject.objects.annotate(total_courses=Count('courses'))` as
(subject id, course count) pairs. -/
def subjectsAnnotated (db : DB) : List (Nat × Nat) :=
  db.subjects.map (fun s =>
    (s.id, (db.courses.filter (fun c => c.subject == s.id)).length))

/-- `Course.objects.annotate(total_modules=Count('modules'))` restricted to a
given course sequence, as (course id, module count) pairs. -/
def coursesAnnotated (db : DB) (cs : List Course) : List (Nat × Nat) :=
  cs.map (fun c =>
    (c.id, (db.modules.filter (fun m => m.course == c.id)).length))

/-- `CourseListView.get` (views.py lines 232-247): public catalog, no actor
involved; with a slug the course sequence is filtered to the resolved subject
(404 when no subject has the slug) while the subject sequence stays full. -/
def courseListView (db : DB) (slug : Option String) : Response :=
  match slug with
  | none =>
    Response.renderCatalog (subjectsAnnotated db)
      (coursesAnnotated db db.courses) none
  | some sl =>
    match db.subjects.find? (fun s => s.slug == sl) with
    | none => Response.notFound
    | some s =>
      Response.renderCatalog (subjectsAnnotated db)
        (coursesAnnotated db (db.courses.filter (fun c => c.subject == s.id)))
        (some s.id)

/-- Storage-layer invariants: primary keys are unique per table (typed items
per `(kind, id)`), subject slugs are unique, and autoincrement ids are
nonzero. -/
def DB.wf (db : DB) : Prop :=
  db.subjects.Pairwise (fun a b => a.id ≠ b.id ∧ a.slug ≠ b.slug) ∧
  db.courses.Pairwise (fun a b => a.id ≠ b.id) ∧
  db.modules.Pairwise (fun a b => a.id ≠ b.id) ∧
  db.contents.Pairwise (fun a b => a.id ≠ b.id) ∧
  db.items.Pairwise (fun a b => (a.kind, a.id) ≠ (b.kind, b.id)) ∧
  ∀ it ∈ db.items, it.id ≠ 0

instance (db : DB) : Decidable db.wf := by
  unfold DB.wf
  infer_instance

/-- Two members of a list with pairwise-distinct keys that share a key are
equal. -/
theorem mem_eq_of_pairwise_keys {α κ : Type} (key : α → κ) {l : List α}
    (h : l.Pairwise (fun a b => key a ≠ key b)) {a b : α}
    (ha : a ∈ l) (hb : b ∈ l) (hk : key a = key b) : a = b := by
  induction l with
  | nil => cases ha
  | cons x t ih =>
    rw [List.pairwise_cons] at h
    rcases List.mem_cons.mp ha with rfl | ha'
    · rcases List.mem_cons.mp hb with rfl | hb'
      · rfl
      · exact absurd hk (h.1 _ hb')
    · rcases List.mem_cons.mp hb with rfl | hb'
      · exact absurd hk.symm (h.1 _ ha')
      · exact ih h.2 ha' hb'

/-- `find?` with a predicate that pins down the key of `c` returns `c` when
the predicate holds at `c` and keys are pairwise distinct. -/
theorem find_eq_some_of_pairwise_keys {α κ : Type} (key : α → κ)
    (p : α → Bool) {l : List α}
    (h : l.Pairwise (fun a b => key a ≠ key b)) {c : α} (hc : c ∈ l)
    (hpk : ∀ x, p x = true → key x = key c) (hpc : p c = true) :
    l.find? p = some c := by
  induction l with
  | nil => cases hc
  | cons x t ih =>
    rw [List.pairwise_cons] at h
    by_cases hx : p x = true
    · have hxc : x = c := by
        rcases List.mem_cons.mp hc with rfl | hc'
        · rfl
        · exact absurd (hpk x hx) (h.1 _ hc')
      rw [List.find?_cons_of_pos _ hx, hxc]
    · rcases List.mem_cons.mp hc with rfl | hc'
      · exact absurd hpc hx
      · rw [List.find?_cons_of_neg _ hx]
        exact ih h.2 hc'

/-- `find?` with a predicate that pins down the key of `c` finds nothing when
the predicate fails at `c` and keys are pairwise distinct. -/
theorem find_eq_none_of_pairwise_keys {α κ : Type} (key : α → κ)
    (p : α → Bool) {l : List α}
    (h : l.Pairwise (fun a b => key a ≠ key b)) {c : α} (hc : c ∈ l)
    (hpk : ∀ x, p x = true → key x = key c) (hpc : p c = false) :
    l.find? p = none := by
  rw [List.find?_eq_none]
  intro x hx hpx
  have hxc : x = c := mem_eq_of_pairwise_keys key h hx hc (hpk x hpx)
  rw [hxc, hpc] at hpx
  exact Bool.noConfusion hpx


def dbC1 : DB :=
  { subjects := [],
    courses := [{ id := 1, owner := 1, subject := 1, title := "Old",
                  slug := "old", overview := "o" }],
    modules := [], contents := [], items := [] }

/-- C1: refuted on the code.  `CourseUpdateView` and `CourseDeleteView` set
`permission_required` but never inherit `PermissionRequiredMixin`, so an
authenticated owner with NO change/delete permission still updates
(respectively deletes) the course and is redirected to the course list. -/
theorem C1_no_permission_check_on_update_delete :
    courseUpdateView dbC1 (some 1)
        { add_course := false, change_course := false, delete_course := false }
        1 { subject := 1, title := "New", slug := "new", overview := "n" } true
      = (Response.redirect UrlName.manage_course_list none,
         { dbC1 with courses := [{ id := 1, owner := 1, subject := 1,
                                   title := "New", slug := "new",
                                   overview := "n" }] }) ∧
    courseDeleteView dbC1 (some 1)
        { add_course := false, change_course := false, delete_course := false }
        1
      = (Response.redirect UrlName.manage_course_list none,
         { dbC1 with courses := [] }) := by
  exact ⟨by decide, by decide⟩

/-- C2: for any course `c` not owned by actor `u`, the owner-scoped
operations neither reveal nor mutate `c`: the managed list excludes `c.id`;
update, delete, the module formset (GET and POST), the module content list,
content create/update under any of `c`'s modules, and deletion of any content
under `c`'s modules all answer NotFound and leave the store unchanged. -/
theorem C2_owner_scoping (db : DB) (hwf : db.wf) (u : UserId) (c : Course)
    (hc : c ∈ db.courses) (hne : c.owner ≠ u) :
    (∀ ids, manageCourseListView db (some u) = Response.renderCourseList ids →
        c.id ∉ ids) ∧
    (∀ perms form fv,
        courseUpdateView db (some u) perms c.id form fv = (Response.notFound, db)) ∧
    (∀ perms, courseDeleteView db (some u) perms c.id = (Response.notFound, db)) ∧
    courseModuleUpdateGet db (some u) c.id = Response.notFound ∧
    (∀ rows, courseModuleUpdatePost db (some u) c.id rows = (Response.notFound, db)) ∧
    (∀ m ∈ db.modules, m.course = c.id →
      moduleContentListView db (some u) m.id = Response.notFound ∧
      (∀ mn oid, contentCreateUpdateGet db (some u) m.id mn oid = Response.notFound) ∧
      (∀ mn oid form,
          contentCreateUpdatePost db (some u) m.id mn oid form = (Response.notFound, db)) ∧
      (∀ ct ∈ db.contents, ct.module = m.id →
          contentDeleteView db (some u) ct.id = (Response.notFound, db))) := by
  obtain ⟨hS, hC, hM, hCt, hI, hPos⟩ := hwf
  have hfindC : db.courses.find? (fun x => x.id == c.id && x.owner == u) = none :=
    find_eq_none_of_pairwise_keys Course.id _ hC hc
      (fun x hx => by simp at hx; exact hx.1)
      (by simp [hne])
  have hfindid : db.courses.find? (fun x => x.id == c.id) = some c :=
    find_eq_some_of_pairwise_keys Course.id _ hC hc
      (fun x hx => beq_iff_eq.mp hx) (by simp)
  have hCO : courseOwner db c.id = some c.owner := by
    simp [courseOwner, hfindid]
  have hmodOwn : ∀ m : Module, m.course = c.id → moduleOwnedBy db u m = false := by
    intro m hm
    simp [moduleOwnedBy, hm, hCO, hne]
  have hfindM : ∀ m ∈ db.modules, m.course = c.id →
      db.modules.find? (fun x => x.id == m.id && moduleOwnedBy db u x) = none := by
    intro m hm hmc
    refine find_eq_none_of_pairwise_keys Module.id _ hM hm
      (fun x hx => by simp at hx; exact hx.1) ?_
    simp [hmodOwn m hmc]
  refine ⟨?_, ?_, ?_, ?_, ?_, ?_⟩
  · intro ids hids hmem
    simp only [manageCourseListView, Response.renderCourseList.injEq] at hids
    subst hids
    rcases List.mem_map.mp hmem with ⟨x, hxmem, hxid⟩
    rcases List.mem_filter.mp hxmem with ⟨hxl, hxo⟩
    have hxc : x = c := mem_eq_of_pairwise_keys Course.id hC hxl hc hxid
    subst hxc
    exact hne (beq_iff_eq.mp hxo)
  · intro perms form fv
    simp [courseUpdateView, hfindC]
  · intro perms
    simp [courseDeleteView, hfindC]
  · simp [courseModuleUpdateGet, hfindC]
  · intro rows
    simp [courseModuleUpdatePost, hfindC]
  · intro m hm hmc
    refine ⟨?_, ?_, ?_, ?_⟩
    · simp [moduleContentListView, hfindM m hm hmc]
    · intro mn oid
      simp [contentCreateUpdateGet, contentDispatch, hfindM m hm hmc]
    · intro mn oid form
      simp [contentCreateUpdatePost, contentDispatch, hfindM m hm hmc]
    · intro ct hct hctm
      have hfm : db.modules.find? (fun x => x.id == ct.module) = some m := by
        rw [hctm]
        exact find_eq_some_of_pairwise_keys Module.id _ hM hm
          (fun x hx => beq_iff_eq.mp hx) (by simp)
      have hcof : contentOwnedBy db u ct = false := by
        simp [contentOwnedBy, hfm, hmodOwn m hmc]
      have hfindCtF :
          db.contents.find? (fun x => x.id == ct.id && contentOwnedBy db u x) = none :=
        find_eq_none_of_pairwise_keys Content.id _ hCt hct
          (fun x hx => by simp at hx; exact hx.1)
          (by simp [hcof])
      simp [contentDeleteView, hfindCtF]

def dbC2 : DB :=
  { subjects := [],
    courses := [{ id := 1, owner := 1, subject := 1, title := "A",
                  slug := "a", overview := "x" }],
    modules := [{ id := 4, course := 1, title := "M", description := "d",
                  order := 0 }],
    contents := [], items := [] }

/-- Witness for C2 at a concrete store: user 2 updating user 1's course 1
gets NotFound and the store is untouched. -/
theorem C2_owner_scoping_witness :
    courseUpdateView dbC2 (some 2)
        { add_course := true, change_course := true, delete_course := true }
        1 { subject := 1, title := "B", slug := "b", overview := "y" } true
      = (Response.notFound, dbC2) :=
  (C2_owner_scoping dbC2 (by decide) 2
      { id := 1, owner := 1, subject := 1, title := "A", slug := "a",
        overview := "x" }
      (by decide) (by decide)).2.1
    { add_course := true, change_course := true, delete_course := true }
    { subject := 1, title := "B", slug := "b", overview := "y" } true

def dbC3 : DB :=
  { subjects := [],
    courses := [{ id := 1, owner := 1, subject := 1, title := "A",
                  slug := "a", overview := "x" }],
    modules := [{ id := 2, course := 1, title := "M", description := "d",
                  order := 0 }],
    contents := [], items := [] }

/-- C3 counterexample: the ordering endpoints have no authentication guard;
an unauthenticated POST (empty mapping) is processed exactly like an
authenticated one and answered with the fixed OK payload, not rejected. -/
theorem C3_unauthenticated_ordering_processed :
    moduleOrderView dbC3 none [] = (Response.jsonSaved, dbC3) ∧
    contentOrderView dbC3 none [] = (Response.jsonSaved, dbC3) ∧
    moduleOrderView dbC3 none [] = moduleOrderView dbC3 (some 1) [] ∧
    contentOrderView dbC3 none [] = contentOrderView dbC3 (some 1) [] := by
  exact ⟨by decide, by decide, by decide, by decide⟩

/-- C3 amended: the Course CRUD endpoints (which inherit LoginRequiredMixin)
reject unauthenticated requests with a login redirect; the module formset,
content create/update, content delete and the two ordering endpoints have no
authentication guard — an unauthenticated request is processed and either
crashes at the owner filter (server error, store unchanged) or, for an
ordering request with an empty mapping, is answered with the OK payload; in
no case does an unauthenticated request mutate the store. -/
theorem C3_authentication_guards (db : DB) :
    manageCourseListView db none = Response.loginRequired ∧
    (∀ perms form fv,
        courseCreateView db none perms form fv = (Response.loginRequired, db)) ∧
    (∀ perms pk form fv,
        courseUpdateView db none perms pk form fv = (Response.loginRequired, db)) ∧
    (∀ perms pk, courseDeleteView db none perms pk = (Response.loginRequired, db)) ∧
    (∀ pk rows,
        courseModuleUpdatePost db none pk rows = (Response.crash PyExc.typeErr, db)) ∧
    (∀ mid mn oid form,
        contentCreateUpdatePost db none mid mn oid form
          = (Response.crash PyExc.typeErr, db)) ∧
    (∀ cid, contentDeleteView db none cid = (Response.crash PyExc.typeErr, db)) ∧
    (∀ mapping, (moduleOrderView db none mapping).2 = db) ∧
    (∀ mapping, (contentOrderView db none mapping).2 = db) ∧
    moduleOrderView db none [] = (Response.jsonSaved, db) ∧
    contentOrderView db none [] = (Response.jsonSaved, db) := by
  refine ⟨rfl, fun _ _ _ => rfl, fun _ _ _ _ => rfl, fun _ _ => rfl,
    fun _ _ => rfl, fun _ _ _ _ => rfl, fun _ => rfl, ?_, ?_, rfl, rfl⟩
  · intro mapping
    cases mapping <;> rfl
  · intro mapping
    cases mapping <;> rfl

/-- The ordering loop never touches any table but `modules`. -/
theorem moduleOrderRun_tables (u : UserId) (db : DB)
    (mapping : List (Nat × Nat)) :
    (moduleOrderRun u db mapping).subjects = db.subjects ∧
    (moduleOrderRun u db mapping).courses = db.courses ∧
    (moduleOrderRun u db mapping).contents = db.contents ∧
    (moduleOrderRun u db mapping).items = db.items := by
  induction mapping generalizing db with
  | nil => exact ⟨rfl, rfl, rfl, rfl⟩
  | cons p ps ih =>
    exact ih { db with modules := db.modules.map (ordStepM db u p) }

/-- The row each module maps to under the ordering loop: the whole loop,
restricted to one module, with ownership evaluated in the initial store
(courses never change during the loop). -/
theorem moduleOrderRun_modules (u : UserId) (db : DB)
    (mapping : List (Nat × Nat)) :
    (moduleOrderRun u db mapping).modules
      = db.modules.map (fun m =>
          mapping.foldl (fun a p => ordStepM db u p a) m) := by
  induction mapping generalizing db with
  | nil => simp [moduleOrderRun]
  | cons p ps ih =>
    have h := ih { db with modules := db.modules.map (ordStepM db u p) }
    rw [show ordStepM { db with modules := db.modules.map (ordStepM db u p) } u
          = ordStepM db u from rfl] at h
    calc (moduleOrderRun u db (p :: ps)).modules
        = (moduleOrderRun u
            { db with modules := db.modules.map (ordStepM db u p) } ps).modules := rfl
      _ = (db.modules.map (ordStepM db u p)).map
            (fun m => ps.foldl (fun a q => ordStepM db u q a) m) := h
      _ = db.modules.map
            (fun m => (p :: ps).foldl (fun a q => ordStepM db u q a) m) := by
          rw [List.map_map]; rfl

/-- A module whose course the actor does not own is never rewritten. -/
theorem ordStepM_foldl_not_owned (db : DB) (u : UserId)
    (mapping : List (Nat × Nat)) (m : Module)
    (h : moduleOwnedBy db u m = false) :
    mapping.foldl (fun a p => ordStepM db u p a) m = m := by
  induction mapping with
  | nil => rfl
  | cons p ps ih =>
    rw [List.foldl_cons, show ordStepM db u p m = m by simp [ordStepM, h]]
    exact ih

/-- A module whose id the mapping does not mention is never rewritten. -/
theorem ordStepM_foldl_not_mapped (db : DB) (u : UserId)
    (mapping : List (Nat × Nat)) (m : Module)
    (h : ∀ k, (m.id, k) ∉ mapping) :
    mapping.foldl (fun a p => ordStepM db u p a) m = m := by
  induction mapping with
  | nil => rfl
  | cons p ps ih =>
    have hne : (m.id == p.1) = false := by
      rw [beq_eq_false_iff_ne]
      intro he
      exact h p.2 (by rw [he, Prod.mk.eta]; exact List.mem_cons_self p ps)
    have hps : ∀ k, (m.id, k) ∉ ps := fun k hk => h k (List.mem_cons_of_mem p hk)
    rw [List.foldl_cons, show ordStepM db u p m = m by simp [ordStepM, hne]]
    exact ih hps

/-- An owned module mentioned by a duplicate-free mapping ends with exactly
the submitted order. -/
theorem ordStepM_foldl_mapped (db : DB) (u : UserId)
    (mapping : List (Nat × Nat)) (m : Module) (k : Nat)
    (hnd : (mapping.map Prod.fst).Nodup)
    (hmem : (m.id, k) ∈ mapping) (hown : moduleOwnedBy db u m = true) :
    mapping.foldl (fun a p => ordStepM db u p a) m = { m with order := k } := by
  induction mapping with
  | nil => cases hmem
  | cons p ps ih =>
    rw [List.map_cons, List.nodup_cons] at hnd
    rcases List.mem_cons.mp hmem with heq | hmem'
    · have hstep : ordStepM db u p m = { m with order := k } := by
        rw [← heq]
        simp [ordStepM, hown]
      rw [List.foldl_cons, hstep]
      apply ordStepM_foldl_not_mapped
      intro k2 hk2
      have hmem2 : (m.id, k2) ∈ ps := hk2
      have hp1 : p.1 = m.id := by rw [← heq]
      exact hnd.1 (by rw [hp1]; exact List.mem_map_of_mem Prod.fst hmem2)
    · have hne : (m.id == p.1) = false := by
        rw [beq_eq_false_iff_ne]
        intro he
        exact hnd.1 (he ▸ List.mem_map_of_mem Prod.fst hmem')
      rw [List.foldl_cons]
      rw [show ordStepM db u p m = m by simp [ordStepM, hne]]
      exact ih hnd.2 hmem'

/-- The content ordering loop never touches any table but `contents`. -/
theorem contentOrderRun_tables (u : UserId) (db : DB)
    (mapping : List (Nat × Nat)) :
    (contentOrderRun u db mapping).subjects = db.subjects ∧
    (contentOrderRun u db mapping).courses = db.courses ∧
    (contentOrderRun u db mapping).modules = db.modules ∧
    (contentOrderRun u db mapping).items = db.items := by
  induction mapping generalizing db with
  | nil => exact ⟨rfl, rfl, rfl, rfl⟩
  | cons p ps ih =>
    exact ih { db with contents := db.contents.map (ordStepC db u p) }

/-- The row each content maps to under the content ordering loop. -/
theorem contentOrderRun_contents (u : UserId) (db : DB)
    (mapping : List (Nat × Nat)) :
    (contentOrderRun u db mapping).contents
      = db.contents.map (fun c =>
          mapping.foldl (fun a p => ordStepC db u p a) c) := by
  induction mapping generalizing db with
  | nil => simp [contentOrderRun]
  | cons p ps ih =>
    have h := ih { db with contents := db.contents.map (ordStepC db u p) }
    rw [show ordStepC { db with contents := db.contents.map (ordStepC db u p) } u
          = ordStepC db u from rfl] at h
    calc (contentOrderRun u db (p :: ps)).contents
        = (contentOrderRun u
            { db with contents := db.contents.map (ordStepC db u p) } ps).contents := rfl
      _ = (db.contents.map (ordStepC db u p)).map
            (fun c => ps.foldl (fun a q => ordStepC db u q a) c) := h
      _ = db.contents.map
            (fun c => (p :: ps).foldl (fun a q => ordStepC db u q a) c) := by
          rw [List.map_map]; rfl

/-- A content row the actor does not own (via module and course) is never
rewritten. -/
theorem ordStepC_foldl_not_owned (db : DB) (u : UserId)
    (mapping : List (Nat × Nat)) (c : Content)
    (h : contentOwnedBy db u c = false) :
    mapping.foldl (fun a p => ordStepC db u p a) c = c := by
  induction mapping with
  | nil => rfl
  | cons p ps ih =>
    rw [List.foldl_cons, show ordStepC db u p c = c by simp [ordStepC, h]]
    exact ih

/-- A content row whose id the mapping does not mention is never rewritten. -/
theorem ordStepC_foldl_not_mapped (db : DB) (u : UserId)
    (mapping : List (Nat × Nat)) (c : Content)
    (h : ∀ k, (c.id, k) ∉ mapping) :
    mapping.foldl (fun a p => ordStepC db u p a) c = c := by
  induction mapping with
  | nil => rfl
  | cons p ps ih =>
    have hne : (c.id == p.1) = false := by
      rw [beq_eq_false_iff_ne]
      intro he
      exact h p.2 (by rw [he, Prod.mk.eta]; exact List.mem_cons_self p ps)
    have hps : ∀ k, (c.id, k) ∉ ps := fun k hk => h k (List.mem_cons_of_mem p hk)
    rw [List.foldl_cons, show ordStepC db u p c = c by simp [ordStepC, hne]]
    exact ih hps

/-- An owned content row mentioned by a duplicate-free mapping ends with
exactly the submitted order. -/
theorem ordStepC_foldl_mapped (db : DB) (u : UserId)
    (mapping : List (Nat × Nat)) (c : Content) (k : Nat)
    (hnd : (mapping.map Prod.fst).Nodup)
    (hmem : (c.id, k) ∈ mapping) (hown : contentOwnedBy db u c = true) :
    mapping.foldl (fun a p => ordStepC db u p a) c = { c with order := k } := by
  induction mapping with
  | nil => cases hmem
  | cons p ps ih =>
    rw [List.map_cons, List.nodup_cons] at hnd
    rcases List.mem_cons.mp hmem with heq | hmem'
    · have hstep : ordStepC db u p c = { c with order := k } := by
        rw [← heq]
        simp [ordStepC, hown]
      rw [List.foldl_cons, hstep]
      apply ordStepC_foldl_not_mapped
      intro k2 hk2
      have hmem2 : (c.id, k2) ∈ ps := hk2
      have hp1 : p.1 = c.id := by rw [← heq]
      exact hnd.1 (by rw [hp1]; exact List.mem_map_of_mem Prod.fst hmem2)
    · have hne : (c.id == p.1) = false := by
        rw [beq_eq_false_iff_ne]
        intro he
        exact hnd.1 (he ▸ List.mem_map_of_mem Prod.fst hmem')
      rw [List.foldl_cons]
      rw [show ordStepC db u p c = c by simp [ordStepC, hne]]
      exact ih hnd.2 hmem'

/-- C6: for an authenticated actor and a duplicate-free id-to-order mapping,
both ordering endpoints always answer the fixed OK payload; every owned
entity mentioned by the mapping ends with exactly the submitted order; every
non-owned (or unmentioned) entity is completely unchanged; and no other
table of the store is touched. -/
theorem C6_ordering_bulk_update (db : DB) (u : UserId)
    (mapping : List (Nat × Nat)) (hnd : (mapping.map Prod.fst).Nodup) :
    (moduleOrderView db (some u) mapping).1 = Response.jsonSaved ∧
    (contentOrderView db (some u) mapping).1 = Response.jsonSaved ∧
    (moduleOrderView db (some u) mapping).2.courses = db.courses ∧
    (moduleOrderView db (some u) mapping).2.contents = db.contents ∧
    (moduleOrderView db (some u) mapping).2.items = db.items ∧
    (contentOrderView db (some u) mapping).2.modules = db.modules ∧
    (∀ m ∈ db.modules, ∀ k, (m.id, k) ∈ mapping →
        moduleOwnedBy db u m = true →
        { m with order := k } ∈ (moduleOrderView db (some u) mapping).2.modules) ∧
    (∀ m ∈ db.modules, moduleOwnedBy db u m = false →
        m ∈ (moduleOrderView db (some u) mapping).2.modules) ∧
    (∀ m ∈ db.modules, (∀ k, (m.id, k) ∉ mapping) →
        m ∈ (moduleOrderView db (some u) mapping).2.modules) ∧
    (∀ c ∈ db.contents, ∀ k, (c.id, k) ∈ mapping →
        contentOwnedBy db u c = true →
        { c with order := k } ∈ (contentOrderView db (some u) mapping).2.contents) ∧
    (∀ c ∈ db.contents, contentOwnedBy db u c = false →
        c ∈ (contentOrderView db (some u) mapping).2.contents) ∧
    (∀ c ∈ db.contents, (∀ k, (c.id, k) ∉ mapping) →
        c ∈ (contentOrderView db (some u) mapping).2.contents) := by
  refine ⟨rfl, rfl, (moduleOrderRun_tables u db mapping).2.1,
    (moduleOrderRun_tables u db mapping).2.2.1,
    (moduleOrderRun_tables u db mapping).2.2.2,
    (contentOrderRun_tables u db mapping).2.2.1, ?_, ?_, ?_, ?_, ?_, ?_⟩
  · intro m hm k hk hown
    have h2 : (moduleOrderView db (some u) mapping).2 = moduleOrderRun u db mapping := rfl
    rw [h2, moduleOrderRun_modules]
    exact List.mem_map.mpr ⟨m, hm, ordStepM_foldl_mapped db u mapping m k hnd hk hown⟩
  · intro m hm hown
    rw [show (moduleOrderView db (some u) mapping).2 = moduleOrderRun u db mapping from rfl,
      moduleOrderRun_modules]
    exact List.mem_map.mpr ⟨m, hm, ordStepM_foldl_not_owned db u mapping m hown⟩
  · intro m hm hun
    rw [show (moduleOrderView db (some u) mapping).2 = moduleOrderRun u db mapping from rfl,
      moduleOrderRun_modules]
    exact List.mem_map.mpr ⟨m, hm, ordStepM_foldl_not_mapped db u mapping m hun⟩
  · intro c hc k hk hown
    rw [show (contentOrderView db (some u) mapping).2 = contentOrderRun u db mapping from rfl,
      contentOrderRun_contents]
    exact List.mem_map.mpr ⟨c, hc, ordStepC_foldl_mapped db u mapping c k hnd hk hown⟩
  · intro c hc hown
    rw [show (contentOrderView db (some u) mapping).2 = contentOrderRun u db mapping from rfl,
      contentOrderRun_contents]
    exact List.mem_map.mpr ⟨c, hc, ordStepC_foldl_not_owned db u mapping c hown⟩
  · intro c hc hun
    rw [show (contentOrderView db (some u) mapping).2 = contentOrderRun u db mapping from rfl,
      contentOrderRun_contents]
    exact List.mem_map.mpr ⟨c, hc, ordStepC_foldl_not_mapped db u mapping c hun⟩

def dbC6 : DB :=
  { subjects := [],
    courses := [{ id := 1, owner := 1, subject := 1, title := "Django Basics",
                  slug := "django-basics", overview := "x" },
                { id := 3, owner := 9, subject := 1, title := "Other",
                  slug := "other", overview := "y" }],
    modules := [{ id := 2, course := 1, title := "Intro", description := "d",
                  order := 0 },
                { id := 5, course := 3, title := "Foreign", description := "e",
                  order := 1 }],
    contents := [], items := [] }

/-- Witness for C6 at a concrete store: user 1 submits orders for an owned
module (id 2) and a non-owned one (id 5); the owned module gets the new
order. -/
theorem C6_ordering_bulk_update_witness :
    ({ id := 2, course := 1, title := "Intro", description := "d",
       order := 5 } : Module)
      ∈ (moduleOrderView dbC6 (some 1) [(2, 5), (5, 7)]).2.modules :=
  (C6_ordering_bulk_update dbC6 1 [(2, 5), (5, 7)]
      (by decide)).2.2.2.2.2.2.1
    { id := 2, course := 1, title := "Intro", description := "d", order := 0 }
    (by decide) 5 (by decide) (by decide)

/-- C7: over an owned course, a module-formset POST is all-or-nothing: when
every row is valid, the whole set is saved and the controller redirects to
the course list; when any row is invalid, the store is returned unchanged
and the form is re-rendered with errors. -/
theorem C7_formset_all_or_nothing (db : DB) (hwf : db.wf) (u : UserId)
    (c : Course) (hc : c ∈ db.courses) (hown : c.owner = u)
    (rows : List ModuleRow) :
    (rows.all (fun r => r.valid) = true →
        courseModuleUpdatePost db (some u) c.id rows
          = (Response.redirect UrlName.manage_course_list none,
             formsetSave c.id db rows)) ∧
    (rows.all (fun r => r.valid) = false →
        courseModuleUpdatePost db (some u) c.id rows
          = (Response.renderForm true, db)) := by
  have hfind : db.courses.find? (fun x => x.id == c.id && x.owner == u) = some c :=
    find_eq_some_of_pairwise_keys Course.id _ hwf.2.1 hc
      (fun x hx => by simp at hx; exact hx.1) (by simp [hown])
  constructor
  · intro hv
    simp [courseModuleUpdatePost, hfind, hv, formsetSave]
  · intro hv
    simp [courseModuleUpdatePost, hfind, hv]

def dbC7 : DB :=
  { subjects := [],
    courses := [{ id := 1, owner := 1, subject := 1, title := "A",
                  slug := "a", overview := "x" }],
    modules := [{ id := 4, course := 1, title := "M", description := "d",
                  order := 0 }],
    contents := [], items := [] }

/-- Witness for C7 at a concrete store: a formset with one valid addition and
one invalid deletion row persists nothing and re-renders the form. -/
theorem C7_formset_all_or_nothing_witness :
    courseModuleUpdatePost dbC7 (some 1) 1
        [ { op := ModuleRowOp.add "New" "n", valid := true },
          { op := ModuleRowOp.remove 4, valid := false } ]
      = (Response.renderForm true, dbC7) :=
  (C7_formset_all_or_nothing dbC7 (by decide) 1
      { id := 1, owner := 1, subject := 1, title := "A", slug := "a",
        overview := "x" }
      (by decide) (by decide)
      [ { op := ModuleRowOp.add "New" "n", valid := true },
        { op := ModuleRowOp.remove 4, valid := false } ]).2 (by decide)

/-- Evaluation of a valid content-create POST (no id supplied): the typed
item is inserted with `owner = actor` and exactly one Content row wrapping
it is appended to the resolved module. -/
theorem contentPost_create_eval (db : DB) (u : UserId) (m : Module)
    (hM : db.modules.Pairwise (fun a b => a.id ≠ b.id)) (hm : m ∈ db.modules)
    (hown : moduleOwnedBy db u m = true)
    (name : String) (kind : ItemKind) (hname : get_model name = some kind)
    (form : ContentForm) (hv : form.valid = true) :
    contentCreateUpdatePost db (some u) m.id name none form
      = (Response.redirect UrlName.module_content_list (some m.id),
         { db with
             items := db.items ++
               [{ kind := kind, id := nextItemId db kind, owner := u,
                  title := form.title, payload := form.payload }],
             contents := db.contents ++
               [{ id := nextContentId db, module := m.id, itemKind := kind,
                  itemId := nextItemId db kind, order := 0 }] }) := by
  have hfm : db.modules.find? (fun x => x.id == m.id && moduleOwnedBy db u x)
      = some m :=
    find_eq_some_of_pairwise_keys Module.id _ hM hm
      (fun x hx => by simp at hx; exact hx.1) (by simp [hown])
  simp [contentCreateUpdatePost, contentDispatch, hfm, hname, pyTruthy, hv,
    nextContentId]

/-- Evaluation of a valid content-update POST (id of an existing typed item
owned by the actor): the item's editable fields are overwritten, its owner is
re-stamped with the actor, and no Content row is created. -/
theorem contentPost_update_eval (db : DB) (u : UserId) (m : Module)
    (hM : db.modules.Pairwise (fun a b => a.id ≠ b.id))
    (hI : db.items.Pairwise (fun a b => (a.kind, a.id) ≠ (b.kind, b.id)))
    (hm : m ∈ db.modules) (hown : moduleOwnedBy db u m = true)
    (it : Item) (hit : it ∈ db.items) (hio : it.owner = u) (hid : it.id ≠ 0)
    (name : String) (hname : get_model name = some it.kind)
    (form : ContentForm) (hv : form.valid = true) :
    contentCreateUpdatePost db (some u) m.id name (some it.id) form
      = (Response.redirect UrlName.module_content_list (some m.id),
         { db with items := db.items.map (fun x =>
             if x.kind == it.kind && x.id == it.id then
               { it with title := form.title, payload := form.payload,
                         owner := u }
             else x) }) := by
  have hfm : db.modules.find? (fun x => x.id == m.id && moduleOwnedBy db u x)
      = some m :=
    find_eq_some_of_pairwise_keys Module.id _ hM hm
      (fun x hx => by simp at hx; exact hx.1) (by simp [hown])
  have hfi : db.items.find? (fun x =>
      x.kind == it.kind && x.id == it.id && x.owner == u) = some it :=
    find_eq_some_of_pairwise_keys (fun x => (x.kind, x.id)) _ hI hit
      (fun x hx => by simp at hx ⊢; exact hx.1) (by simp [hio])
  simp [contentCreateUpdatePost, contentDispatch, hfm, hfi, hname, pyTruthy,
    hv, hid]

/-- C8: for a valid content POST under an owned module with an allowed type
tag: on create (no id) the persisted typed item has `owner = actor` and
exactly one new Content row linking it to the module is appended; on update
(id of an existing owned item) the item is rewritten with `owner = actor`,
the Content table is untouched and no row is added; in both cases the
response redirects to the module's content list. -/
theorem C8_content_post (db : DB) (hwf : db.wf) (u : UserId) (m : Module)
    (hm : m ∈ db.modules) (hown : moduleOwnedBy db u m = true)
    (name : String) (kind : ItemKind) (hname : get_model name = some kind)
    (form : ContentForm) (hv : form.valid = true) :
    ((contentCreateUpdatePost db (some u) m.id name none form).1
        = Response.redirect UrlName.module_content_list (some m.id)) ∧
    ((contentCreateUpdatePost db (some u) m.id name none form).2.items
        = db.items ++ [{ kind := kind, id := nextItemId db kind, owner := u,
                         title := form.title, payload := form.payload }]) ∧
    ((contentCreateUpdatePost db (some u) m.id name none form).2.contents
        = db.contents ++ [{ id := nextContentId db, module := m.id,
                            itemKind := kind, itemId := nextItemId db kind,
                            order := 0 }]) ∧
    (∀ it ∈ db.items, it.kind = kind → it.owner = u →
      ((contentCreateUpdatePost db (some u) m.id name (some it.id) form).1
          = Response.redirect UrlName.module_content_list (some m.id)) ∧
      ((contentCreateUpdatePost db (some u) m.id name (some it.id) form).2.contents
          = db.contents) ∧
      ({ it with title := form.title, payload := form.payload, owner := u }
          ∈ (contentCreateUpdatePost db (some u) m.id name (some it.id) form).2.items) ∧
      ((contentCreateUpdatePost db (some u) m.id name (some it.id) form).2.items.length
          = db.items.length)) := by
  have hcr := contentPost_create_eval db u m hwf.2.2.1 hm hown name kind hname form hv
  refine ⟨by rw [hcr], by rw [hcr], by rw [hcr], ?_⟩
  intro it hit hk hio
  have hname' : get_model name = some it.kind := by rw [hk]; exact hname
  have hup := contentPost_update_eval db u m hwf.2.2.1 hwf.2.2.2.2.1 hm hown
    it hit hio (hwf.2.2.2.2.2 it hit) name hname' form hv
  refine ⟨by rw [hup], by rw [hup], ?_, by rw [hup]; exact List.length_map _ _⟩
  rw [hup]
  exact List.mem_map.mpr ⟨it, hit, by simp⟩

def dbC8 : DB :=
  { subjects := [],
    courses := [{ id := 1, owner := 1, subject := 1, title := "A",
                  slug := "a", overview := "x" }],
    modules := [{ id := 2, course := 1, title := "M", description := "d",
                  order := 0 }],
    contents := [], items := [] }

/-- Witness for C8 at a concrete store: user 1 creates a text item under
their module 2; the item lands with owner 1 and one Content row appears. -/
theorem C8_content_post_witness :
    ((contentCreateUpdatePost dbC8 (some 1) 2 "text" none
        { title := "T", payload := "P", valid := true }).2.items
      = [{ kind := ItemKind.text, id := 1, owner := 1, title := "T",
           payload := "P" }]) ∧
    ((contentCreateUpdatePost dbC8 (some 1) 2 "text" none
        { title := "T", payload := "P", valid := true }).2.contents
      = [{ id := 1, module := 2, itemKind := ItemKind.text, itemId := 1,
           order := 0 }]) :=
  ⟨(C8_content_post dbC8 (by decide) 1
      { id := 2, course := 1, title := "M", description := "d", order := 0 }
      (by decide) (by decide) "text" ItemKind.text (by decide)
      { title := "T", payload := "P", valid := true } (by decide)).2.1,
   (C8_content_post dbC8 (by decide) 1
      { id := 2, course := 1, title := "M", description := "d", order := 0 }
      (by decide) (by decide) "text" ItemKind.text (by decide)
      { title := "T", payload := "P", valid := true } (by decide)).2.2.1⟩

/-- C10: on the update path the existing typed item is resolved by its id
and `owner == actor` alone; even when no Content row attaches the item to
the module named in the URL (hypothesis `hdetached`, which the proof never
needs), the edit succeeds, rewrites the item, and touches no Content row. -/
theorem C10_update_path_ignores_module_attachment (db : DB) (hwf : db.wf)
    (u : UserId) (m : Module) (hm : m ∈ db.modules)
    (hown : moduleOwnedBy db u m = true)
    (it : Item) (hit : it ∈ db.items) (hio : it.owner = u)
    (name : String) (hname : get_model name = some it.kind)
    (hdetached : ∀ ct ∈ db.contents,
        ct.module ≠ m.id ∨ ct.itemKind ≠ it.kind ∨ ct.itemId ≠ it.id)
    (form : ContentForm) (hv : form.valid = true) :
    ((contentCreateUpdatePost db (some u) m.id name (some it.id) form).1
        = Response.redirect UrlName.module_content_list (some m.id)) ∧
    ({ it with title := form.title, payload := form.payload, owner := u }
        ∈ (contentCreateUpdatePost db (some u) m.id name (some it.id) form).2.items) ∧
    ((contentCreateUpdatePost db (some u) m.id name (some it.id) form).2.contents
        = db.contents) := by
  have hup := contentPost_update_eval db u m hwf.2.2.1 hwf.2.2.2.2.1 hm hown
    it hit hio (hwf.2.2.2.2.2 it hit) name hname form hv
  refine ⟨by rw [hup], ?_, by rw [hup]⟩
  rw [hup]
  exact List.mem_map.mpr ⟨it, hit, by simp⟩

def dbC10 : DB :=
  { subjects := [],
    courses := [{ id := 1, owner := 1, subject := 1, title := "A",
                  slug := "a", overview := "x" }],
    modules := [{ id := 2, course := 1, title := "M", description := "d",
                  order := 0 },
                { id := 8, course := 1, title := "N", description := "e",
                  order := 1 }],
    contents := [{ id := 3, module := 8, itemKind := ItemKind.text,
                   itemId := 6, order := 0 }],
    items := [{ kind := ItemKind.text, id := 6, owner := 1, title := "T",
                payload := "P" }] }

/-- Witness for C10 at a concrete store: item 6 is attached (via Content 3)
to module 8 only, yet the edit through module 2's URL succeeds and rewrites
it. -/
theorem C10_update_path_ignores_module_attachment_witness :
    ({ kind := ItemKind.text, id := 6, owner := 1, title := "T2",
       payload := "P2" } : Item)
      ∈ (contentCreateUpdatePost dbC10 (some 1) 2 "text" (some 6)
          { title := "T2", payload := "P2", valid := true }).2.items :=
  (C10_update_path_ignores_module_attachment dbC10 (by decide) 1
      { id := 2, course := 1, title := "M", description := "d", order := 0 }
      (by decide) (by decide)
      { kind := ItemKind.text, id := 6, owner := 1, title := "T",
        payload := "P" }
      (by decide) (by decide) "text" (by decide) (by decide)
      { title := "T2", payload := "P2", valid := true } (by decide)).2.1

def dbC4 : DB :=
  { subjects := [],
    courses := [{ id := 3, owner := 1, subject := 1, title := "C",
                  slug := "c", overview := "o" }],
    modules := [{ id := 7, course := 3, title := "M", description := "d",
                  order := 0 }],
    contents := [], items := [] }

/-- C4: evaluation at the failing input.  An unknown type tag resolves to no
model and the request then dereferences it — `modelform_factory(None, ...)`
(AttributeError) on the create path, `get_object_or_404(None, ...)`
(ValueError) when an id is supplied — instead of failing with
ValidationError before further processing; the four allowed tags resolve
their concrete typed models. -/
theorem C4_unknown_model_name_dereferences_none :
    get_model "spreadsheet" = none ∧
    get_model "text" = some ItemKind.text ∧
    get_model "video" = some ItemKind.video ∧
    get_model "image" = some ItemKind.image ∧
    get_model "file" = some ItemKind.file ∧
    contentCreateUpdatePost dbC4 (some 1) 7 "spreadsheet" none
        { title := "t", payload := "p", valid := true }
      = (Response.crash PyExc.attrErr, dbC4) ∧
    contentCreateUpdatePost dbC4 (some 1) 7 "spreadsheet" (some 5)
        { title := "t", payload := "p", valid := true }
      = (Response.crash PyExc.valueErr, dbC4) ∧
    contentCreateUpdateGet dbC4 (some 1) 7 "spreadsheet" none
      = Response.crash PyExc.attrErr := by
  exact ⟨by decide, by decide, by decide, by decide, by decide, by decide,
    by decide, by decide⟩

def dbC5 : DB :=
  { subjects := [],
    courses := [{ id := 1, owner := 1, subject := 1, title := "C",
                  slug := "c", overview := "o" }],
    modules := [{ id := 2, course := 1, title := "M", description := "d",
                  order := 0 }],
    contents := [{ id := 10, module := 2, itemKind := ItemKind.text,
                   itemId := 6, order := 0 }],
    items := [{ kind := ItemKind.text, id := 6, owner := 1, title := "T",
                payload := "hello" }] }

/-- C5: evaluation at the failing input.  The owner's deletion of Content 10
does delete the typed item and then the Content row (no orphan remains), but
the handler then evaluates `redirect('module_content_list', module.id)` with
`module` an undefined name: the response is a NameError crash, not the
redirect to the module's content list. -/
theorem C5_content_delete_crashes_after_deletes :
    contentDeleteView dbC5 (some 1) 10
      = (Response.crash PyExc.nameErr,
         { dbC5 with contents := [], items := [] }) := by
  decide

/-- C9: the public catalog annotates every Subject with its course count and
every listed Course with its module count; with a slug the course sequence
is exactly the courses of the resolved subject (NotFound when no subject
carries the slug) while the subject sequence stays the full annotated one;
no actor is consulted anywhere. -/
theorem C9_public_catalog (db : DB) (hwf : db.wf) :
    (courseListView db none
       = Response.renderCatalog (subjectsAnnotated db)
           (coursesAnnotated db db.courses) none) ∧
    (∀ s ∈ db.subjects,
        (s.id, (db.courses.filter (fun c => c.subject == s.id)).length)
          ∈ subjectsAnnotated db) ∧
    ((subjectsAnnotated db).length = db.subjects.length) ∧
    (∀ c ∈ db.courses,
        (c.id, (db.modules.filter (fun mo => mo.course == c.id)).length)
          ∈ coursesAnnotated db db.courses) ∧
    (∀ sl, (∀ s ∈ db.subjects, s.slug ≠ sl) →
        courseListView db (some sl) = Response.notFound) ∧
    (∀ s ∈ db.subjects,
        courseListView db (some s.slug)
          = Response.renderCatalog (subjectsAnnotated db)
              (coursesAnnotated db
                (db.courses.filter (fun c => c.subject == s.id)))
              (some s.id) ∧
        (∀ c ∈ db.courses, c.subject = s.id →
            (c.id, (db.modules.filter (fun mo => mo.course == c.id)).length)
              ∈ coursesAnnotated db
                  (db.courses.filter (fun c => c.subject == s.id))) ∧
        (∀ pr ∈ coursesAnnotated db
              (db.courses.filter (fun c => c.subject == s.id)),
            ∃ c, c ∈ db.courses ∧ c.subject = s.id ∧ pr.1 = c.id)) := by
  refine ⟨rfl, ?_, ?_, ?_, ?_, ?_⟩
  · intro s hs
    exact List.mem_map.mpr ⟨s, hs, rfl⟩
  · exact List.length_map _ _
  · intro c hc
    exact List.mem_map.mpr ⟨c, hc, rfl⟩
  · intro sl h
    have hfn : db.subjects.find? (fun x => x.slug == sl) = none := by
      rw [List.find?_eq_none]
      intro x hx hpx
      exact h x hx (beq_iff_eq.mp hpx)
    simp [courseListView, hfn]
  · intro s hs
    have hsl : db.subjects.Pairwise (fun a b => a.slug ≠ b.slug) :=
      hwf.1.imp (fun h => h.2)
    have hfs : db.subjects.find? (fun x => x.slug == s.slug) = some s :=
      find_eq_some_of_pairwise_keys Subject.slug _ hsl hs
        (fun x hx => beq_iff_eq.mp hx) (by simp)
    refine ⟨by simp [courseListView, hfs], ?_, ?_⟩
    · intro c hc hcs
      exact List.mem_map.mpr
        ⟨c, List.mem_filter.mpr ⟨hc, by simp [hcs]⟩, rfl⟩
    · intro pr hpr
      rcases List.mem_map.mp hpr with ⟨c, hcf, heq⟩
      rcases List.mem_filter.mp hcf with ⟨hc, hcs⟩
      exact ⟨c, hc, beq_iff_eq.mp hcs, by rw [← heq]⟩

def dbC9 : DB :=
  { subjects := [{ id := 1, title := "Python", slug := "python" },
                 { id := 2, title := "Math", slug := "math" }],
    courses := [{ id := 1, owner := 1, subject := 1, title := "Py",
                  slug := "py", overview := "o" },
                { id := 2, owner := 2, subject := 2, title := "Calc",
                  slug := "calc", overview := "p" }],
    modules := [{ id := 5, course := 1, title := "M", description := "d",
                  order := 0 }],
    contents := [], items := [] }

/-- Witness for C9 at a concrete store: the catalog filtered to slug
`python` lists exactly the python course with its module count while the
subject sequence still carries both subjects with their counts. -/
theorem C9_public_catalog_witness :
    courseListView dbC9 (some "python")
      = Response.renderCatalog [(1, 1), (2, 1)] [(1, 1)] (some 1) :=
  ((C9_public_catalog dbC9 (by decide)).2.2.2.2.2
    { id := 1, title := "Python", slug := "python" } (by decide)).1

end ELearn
